import Mathlib

/-!
Shallow embedding of the `tao` windowing library's icon validation, video-mode
ordering, and event-loop control-flow engine, with theorems checking the
specification's claims against it.

Conventions of the embedding:
- Rust `u32`/`u16`/`usize` values are modelled as `Nat`; `i32` exit codes as
  `Int`. Where `usize` overflow matters (`checked_mul` in icon validation) the
  embedding is parametrised by `usizeMax`, the largest representable `usize`.
- Byte buffers (`Vec<u8>`) are `List Nat`; validation never inspects the bytes,
  only the length.
- Fallible Rust functions returning `Result<A, E>` become `Except E A`.
-/

namespace Tao

/-! ## Icon validation (`src/Source/icon.rs`) -/

/-- Byte size of one `Pixel` (`mem::size_of::<Pixel>()` for the four-`u8`
struct `Pixel`). -/
def PIXEL_SIZE : Nat := 4

/-- The `BadIcon` error enum. The `OsError` payload (an `io::Error`) plays no
role in validation and is dropped. -/
inductive BadIcon where
  | ByteCountNotDivisibleBy4 (byte_count : Nat)
  | DimensionsVsPixelCount (width height width_x_height pixel_count : Nat)
  | DimensionsZero (width height : Nat)
  | DimensionsMultiplyOverflow (width height : Nat)
  | OsError
  deriving DecidableEq, Repr

/-- The `RgbaIcon` struct: the RGBA byte buffer plus its dimensions. -/
structure RgbaIcon where
  rgba : List Nat
  width : Nat
  height : Nat
  deriving DecidableEq, Repr

/-- The `NoIcon` unit struct (platforms without window icons). -/
inductive NoIcon where
  | mk
  deriving DecidableEq, Repr

/-- Rust `usize::checked_mul`: `some (a * b)` when the product is representable
(at most `usizeMax`), `none` on overflow. -/
def checked_mul (usizeMax a b : Nat) : Option Nat :=
  if a * b ≤ usizeMax then some (a * b) else none

/-- `RgbaIcon::from_rgba`: validates in order zero-check, divisibility-check,
overflow-check, mismatch-check, then wraps the buffer. -/
def RgbaIcon.from_rgba (usizeMax : Nat) (rgba : List Nat) (width height : Nat) :
    Except BadIcon RgbaIcon :=
  if width = 0 ∨ height = 0 then
    .error (.DimensionsZero width height)
  else if rgba.length % PIXEL_SIZE ≠ 0 then
    .error (.ByteCountNotDivisibleBy4 rgba.length)
  else
    match checked_mul usizeMax width height with
    | none => .error (.DimensionsMultiplyOverflow width height)
    | some width_x_height =>
      let pixel_count := rgba.length / PIXEL_SIZE
      if pixel_count ≠ width_x_height then
        .error (.DimensionsVsPixelCount width height width_x_height pixel_count)
      else
        .ok { rgba := rgba, width := width, height := height }

/-- `NoIcon::from_rgba`: runs the full `RgbaIcon` validation, propagates its
error, and discards the successful value. -/
def NoIcon.from_rgba (usizeMax : Nat) (rgba : List Nat) (width height : Nat) :
    Except BadIcon NoIcon :=
  match RgbaIcon.from_rgba usizeMax rgba width height with
  | .error e => .error e
  | .ok _ => .ok .mk

end Tao

namespace Tao

/-- The validity condition the spec states for `from_rgba`. -/
def ValidRgba (usizeMax : Nat) (buf : List Nat) (w h : Nat) : Prop :=
  0 < w ∧ 0 < h ∧ buf.length % 4 = 0 ∧ w * h ≤ usizeMax ∧ buf.length / 4 = w * h

instance (usizeMax : Nat) (buf : List Nat) (w h : Nat) :
    Decidable (ValidRgba usizeMax buf w h) := by
  unfold ValidRgba
  infer_instance

/-- Every `Except` value is exactly one of `ok` and `error`. -/
theorem except_error_iff_not_ok {E A : Type} (r : Except E A) :
    (∃ e, r = .error e) ↔ ¬ ∃ a, r = .ok a := by
  cases r <;> simp

/-- C2 sanity: the spec's worked example 16 bytes, 2×2 succeeds. -/
example :
    RgbaIcon.from_rgba (2 ^ 64 - 1) (List.replicate 16 0) 2 2 =
      .ok { rgba := List.replicate 16 0, width := 2, height := 2 } := by rfl

/-- Zero-dimension inputs fail first, with `DimensionsZero`. -/
theorem from_rgba_eq_zero {usizeMax : Nat} {buf : List Nat} {w h : Nat}
    (hz : w = 0 ∨ h = 0) :
    RgbaIcon.from_rgba usizeMax buf w h = .error (.DimensionsZero w h) := by
  simp [RgbaIcon.from_rgba, hz]

/-- With nonzero dimensions, a buffer length not divisible by 4 fails next,
with `ByteCountNotDivisibleBy4`. -/
theorem from_rgba_eq_bytecount {usizeMax : Nat} {buf : List Nat} {w h : Nat}
    (hw : w ≠ 0) (hh : h ≠ 0) (hdiv : buf.length % 4 ≠ 0) :
    RgbaIcon.from_rgba usizeMax buf w h = .error (.ByteCountNotDivisibleBy4 buf.length) := by
  simp [RgbaIcon.from_rgba, PIXEL_SIZE, hw, hh, hdiv]

/-- After the zero and divisibility checks, a `w * h` product exceeding
`usizeMax` fails with `DimensionsMultiplyOverflow`. -/
theorem from_rgba_eq_overflow {usizeMax : Nat} {buf : List Nat} {w h : Nat}
    (hw : w ≠ 0) (hh : h ≠ 0) (hdiv : buf.length % 4 = 0) (hov : ¬ w * h ≤ usizeMax) :
    RgbaIcon.from_rgba usizeMax buf w h = .error (.DimensionsMultiplyOverflow w h) := by
  simp [RgbaIcon.from_rgba, checked_mul, PIXEL_SIZE, hw, hh, hdiv, hov]

/-- Last check: a pixel count differing from `w * h` fails with
`DimensionsVsPixelCount`. -/
theorem from_rgba_eq_mismatch {usizeMax : Nat} {buf : List Nat} {w h : Nat}
    (hw : w ≠ 0) (hh : h ≠ 0) (hdiv : buf.length % 4 = 0) (hov : w * h ≤ usizeMax)
    (hpc : buf.length / 4 ≠ w * h) :
    RgbaIcon.from_rgba usizeMax buf w h =
      .error (.DimensionsVsPixelCount w h (w * h) (buf.length / 4)) := by
  simp [RgbaIcon.from_rgba, checked_mul, PIXEL_SIZE, hw, hh, hdiv, hov, hpc]

/-- When all four checks pass, the buffer is wrapped unchanged. -/
theorem from_rgba_eq_ok {usizeMax : Nat} {buf : List Nat} {w h : Nat}
    (hw : w ≠ 0) (hh : h ≠ 0) (hdiv : buf.length % 4 = 0) (hov : w * h ≤ usizeMax)
    (hpc : buf.length / 4 = w * h) :
    RgbaIcon.from_rgba usizeMax buf w h = .ok ⟨buf, w, h⟩ := by
  simp [RgbaIcon.from_rgba, checked_mul, PIXEL_SIZE, hw, hh, hdiv, hov, hpc]

/-- Inversion: a successful `from_rgba` forces every check to have passed and
determines the icon. -/
theorem from_rgba_ok_inv {usizeMax : Nat} {buf : List Nat} {w h : Nat}
    {icon : RgbaIcon} (hok : RgbaIcon.from_rgba usizeMax buf w h = .ok icon) :
    ValidRgba usizeMax buf w h ∧ icon = ⟨buf, w, h⟩ := by
  by_cases hz : w = 0 ∨ h = 0
  · rw [from_rgba_eq_zero hz] at hok
    cases hok
  · push_neg at hz
    by_cases hdiv : buf.length % 4 = 0
    · by_cases hov : w * h ≤ usizeMax
      · by_cases hpc : buf.length / 4 = w * h
        · rw [from_rgba_eq_ok hz.1 hz.2 hdiv hov hpc] at hok
          cases hok
          exact ⟨⟨Nat.pos_of_ne_zero hz.1, Nat.pos_of_ne_zero hz.2, hdiv, hov, hpc⟩, rfl⟩
        · rw [from_rgba_eq_mismatch hz.1 hz.2 hdiv hov hpc] at hok
          cases hok
      · rw [from_rgba_eq_overflow hz.1 hz.2 hdiv hov] at hok
        cases hok
    · rw [from_rgba_eq_bytecount hz.1 hz.2 hdiv] at hok
      cases hok

/-- C2: `from_rgba` succeeds exactly when both dimensions are positive, the
buffer length is a multiple of 4, `w * h` does not overflow `usize`, and the
pixel count `len / 4` equals `w * h`; in every other case it returns a
`BadIcon` error. -/
theorem from_rgba_ok_iff (usizeMax : Nat) (buf : List Nat) (w h : Nat) :
    ((∃ icon, RgbaIcon.from_rgba usizeMax buf w h = .ok icon) ↔
      ValidRgba usizeMax buf w h) ∧
    ((∃ e, RgbaIcon.from_rgba usizeMax buf w h = .error e) ↔
      ¬ ValidRgba usizeMax buf w h) := by
  have hmain : (∃ icon, RgbaIcon.from_rgba usizeMax buf w h = .ok icon) ↔
      ValidRgba usizeMax buf w h := by
    constructor
    · rintro ⟨icon, hok⟩
      exact (from_rgba_ok_inv hok).1
    · rintro ⟨hw, hh, hdiv, hov, hpc⟩
      exact ⟨⟨buf, w, h⟩,
        from_rgba_eq_ok (Nat.pos_iff_ne_zero.mp hw) (Nat.pos_iff_ne_zero.mp hh) hdiv hov hpc⟩
  exact ⟨hmain, (except_error_iff_not_ok _).trans (not_congr hmain)⟩

/-- C3: the four validation checks run in the fixed order zero-check,
divisibility-check, overflow-check, mismatch-check, and the first failing
check determines the returned error variant. -/
theorem from_rgba_check_order (usizeMax : Nat) (buf : List Nat) (w h : Nat) :
    ((w = 0 ∨ h = 0) →
      RgbaIcon.from_rgba usizeMax buf w h = .error (.DimensionsZero w h)) ∧
    (w ≠ 0 → h ≠ 0 → buf.length % 4 ≠ 0 →
      RgbaIcon.from_rgba usizeMax buf w h = .error (.ByteCountNotDivisibleBy4 buf.length)) ∧
    (w ≠ 0 → h ≠ 0 → buf.length % 4 = 0 → ¬ w * h ≤ usizeMax →
      RgbaIcon.from_rgba usizeMax buf w h = .error (.DimensionsMultiplyOverflow w h)) ∧
    (w ≠ 0 → h ≠ 0 → buf.length % 4 = 0 → w * h ≤ usizeMax → buf.length / 4 ≠ w * h →
      RgbaIcon.from_rgba usizeMax buf w h =
        .error (.DimensionsVsPixelCount w h (w * h) (buf.length / 4))) :=
  ⟨fun hz => from_rgba_eq_zero hz,
   fun hw hh hd => from_rgba_eq_bytecount hw hh hd,
   fun hw hh hd hov => from_rgba_eq_overflow hw hh hd hov,
   fun hw hh hd hov hpc => from_rgba_eq_mismatch hw hh hd hov hpc⟩

/-- C3 at the spec's concrete examples: 15 bytes at 2×2 give the
divisibility error (even though 15/4 = 3 ≠ 4 would also mismatch), and a zero
width gives `DimensionsZero` even though the 4-byte buffer also mismatches
0×1. -/
theorem from_rgba_check_order_witness :
    RgbaIcon.from_rgba (2 ^ 64 - 1) (List.replicate 15 0) 2 2 =
      .error (.ByteCountNotDivisibleBy4 15) ∧
    RgbaIcon.from_rgba (2 ^ 64 - 1) (List.replicate 4 0) 0 1 =
      .error (.DimensionsZero 0 1) := by
  constructor
  · have h := (from_rgba_check_order (2 ^ 64 - 1) (List.replicate 15 0) 2 2).2.1
      (by decide) (by decide) (by decide)
    simpa using h
  · exact (from_rgba_check_order (2 ^ 64 - 1) (List.replicate 4 0) 0 1).1 (Or.inl rfl)

/-- C7: an `RgbaIcon` built by `from_rgba` stores exactly the given buffer and
dimensions, and its buffer length equals `4 × width × height`; the structure
is immutable, so the invariant holds for the value's entire lifetime. -/
theorem rgba_icon_invariant (usizeMax : Nat) (buf : List Nat) (w h : Nat)
    (icon : RgbaIcon) (hok : RgbaIcon.from_rgba usizeMax buf w h = .ok icon) :
    icon.rgba.length = 4 * (icon.width * icon.height) ∧
    icon.width = w ∧ icon.height = h ∧ icon.rgba = buf := by
  obtain ⟨⟨hw, hh, hdiv, hov, hpc⟩, rfl⟩ := from_rgba_ok_inv hok
  refine ⟨?_, rfl, rfl, rfl⟩
  show buf.length = 4 * (w * h)
  generalize w * h = n at hpc
  omega

/-- C7 at a concrete input: the 2×2 icon from 16 bytes satisfies the length
invariant. -/
theorem rgba_icon_invariant_witness :
    (RgbaIcon.mk (List.replicate 16 0) 2 2).rgba.length =
      4 * ((RgbaIcon.mk (List.replicate 16 0) 2 2).width *
        (RgbaIcon.mk (List.replicate 16 0) 2 2).height) :=
  (rgba_icon_invariant (2 ^ 64 - 1) (List.replicate 16 0) 2 2
    (RgbaIcon.mk (List.replicate 16 0) 2 2) (by rfl)).1

/-- C10: `NoIcon::from_rgba` succeeds exactly when `RgbaIcon::from_rgba`
succeeds on the same inputs, and on failure returns the very same `BadIcon`
error: the no-op icon path performs the full validation. -/
theorem no_icon_from_rgba_refines (usizeMax : Nat) (buf : List Nat) (w h : Nat) :
    ((∃ n, NoIcon.from_rgba usizeMax buf w h = .ok n) ↔
      (∃ icon, RgbaIcon.from_rgba usizeMax buf w h = .ok icon)) ∧
    (∀ e, NoIcon.from_rgba usizeMax buf w h = .error e ↔
      RgbaIcon.from_rgba usizeMax buf w h = .error e) := by
  rcases hR : RgbaIcon.from_rgba usizeMax buf w h with e | a
  · simp [NoIcon.from_rgba, hR]
  · simp [NoIcon.from_rgba, hR]
    exact ⟨.mk, trivial⟩

end Tao

namespace Tao

/-! ## Monitors and video modes (`src/Source/monitor.rs`) -/

/-- One video mode as the platform reports it: resolution, bit depth, refresh
rate. -/
structure VideoModeInfo where
  size : Nat × Nat
  bit_depth : Nat
  refresh_rate : Nat
  deriving DecidableEq, Repr

/-- Modelled from the spec: the platform monitor snapshot behind
`platform_impl::MonitorHandle` (the per-platform backends are not among the
sources). `id` is the opaque native handle identity giving the
implementation-defined total, stable order; `alive` records whether the
physical monitor still exists; the remaining fields are the data captured at
enumeration time, served stale if the monitor has since disappeared. The
`f64` scale factor is an uninterpreted stored rational. -/
structure MonitorHandle where
  id : Nat
  alive : Bool
  stored_name : String
  stored_size : Nat × Nat
  stored_position : Int × Int
  stored_scale_factor : Rat
  stored_modes : List VideoModeInfo
  deriving DecidableEq, Repr

/-- Modelled from the spec: the derived `Ord` on `MonitorHandle` delegates to
the opaque platform handle's implementation-defined total stable order. -/
def MonitorHandle.cmp (a b : MonitorHandle) : Ordering :=
  compare a.id b.id

/-- `MonitorHandle::name`: `None` if the monitor does not exist anymore. -/
def MonitorHandle.name (m : MonitorHandle) : Option String :=
  if m.alive then some m.stored_name else none

/-- `MonitorHandle::size`: the snapshot resolution (stale if vanished). -/
def MonitorHandle.size (m : MonitorHandle) : Nat × Nat :=
  m.stored_size

/-- `MonitorHandle::position`: the snapshot position (stale if vanished). -/
def MonitorHandle.position (m : MonitorHandle) : Int × Int :=
  m.stored_position

/-- `MonitorHandle::scale_factor`: the snapshot scale factor. -/
def MonitorHandle.scale_factor (m : MonitorHandle) : Rat :=
  m.stored_scale_factor

/-- A `VideoMode` value: the platform mode data plus its owning monitor, as
exposed by the accessors `size`, `bit_depth`, `refresh_rate`, `monitor`. -/
structure VideoMode where
  mode : VideoModeInfo
  monitor : MonitorHandle
  deriving DecidableEq, Repr

/-- `VideoMode::size`. -/
def VideoMode.size (v : VideoMode) : Nat × Nat :=
  v.mode.size

/-- `VideoMode::bit_depth`. -/
def VideoMode.bit_depth (v : VideoMode) : Nat :=
  v.mode.bit_depth

/-- `VideoMode::refresh_rate`. -/
def VideoMode.refresh_rate (v : VideoMode) : Nat :=
  v.mode.refresh_rate

/-- `MonitorHandle::video_modes`: the snapshot mode list, each mode owned by
this monitor. -/
def MonitorHandle.video_modes (m : MonitorHandle) : List VideoMode :=
  m.stored_modes.map fun vm => ⟨vm, m⟩

/-- Rust's derived lexicographic `Ord` on the `(u32, u32)` size tuple. -/
def cmpSize (a b : Nat × Nat) : Ordering :=
  (compare a.1 b.1).then (compare a.2 b.2)

/-- `impl Ord for VideoMode` (`src/Source/monitor.rs`): compare owning
monitors first; within a monitor, the combined lexicographic
(size, refresh rate, bit depth) comparison is reversed. -/
def VideoMode.cmp (a b : VideoMode) : Ordering :=
  (a.monitor.cmp b.monitor).then
    (((cmpSize a.size b.size).then
      ((compare a.refresh_rate b.refresh_rate).then
        (compare a.bit_depth b.bit_depth))).swap)

theorem nat_compare_self (n : Nat) : compare n n = Ordering.eq := by
  simp [Nat.compare_eq_eq]

theorem monitor_cmp_self (m : MonitorHandle) : m.cmp m = Ordering.eq :=
  nat_compare_self m.id

/-- C4: `VideoMode` ordering compares owning monitors first (ascending); for
modes of the same monitor the combined lexicographic (resolution, refresh
rate, bit depth) comparison is reversed, so strictly larger resolution sorts
less-than, and at equal resolution a strictly higher refresh rate sorts
less-than. -/
theorem video_mode_cmp_spec (a b : VideoMode) :
    (a.monitor.cmp b.monitor ≠ .eq → VideoMode.cmp a b = a.monitor.cmp b.monitor) ∧
    (a.monitor = b.monitor →
      VideoMode.cmp a b =
        ((cmpSize a.size b.size).then
          ((compare a.refresh_rate b.refresh_rate).then
            (compare a.bit_depth b.bit_depth))).swap) ∧
    (a.monitor = b.monitor → cmpSize a.size b.size = .gt → VideoMode.cmp a b = .lt) ∧
    (a.monitor = b.monitor → a.size = b.size → b.refresh_rate < a.refresh_rate →
      VideoMode.cmp a b = .lt) := by
  refine ⟨?_, ?_, ?_, ?_⟩
  · intro hne
    unfold VideoMode.cmp
    cases hmc : a.monitor.cmp b.monitor
    · rfl
    · exact absurd hmc hne
    · rfl
  · intro hme
    unfold VideoMode.cmp
    rw [hme, monitor_cmp_self]
    rfl
  · intro hme hgt
    unfold VideoMode.cmp
    rw [hme, monitor_cmp_self, hgt]
    rfl
  · intro hme hsz hrr
    have h1 : cmpSize a.size b.size = .eq := by
      rw [hsz]
      unfold cmpSize
      rw [nat_compare_self, nat_compare_self]
      rfl
    have h2 : compare a.refresh_rate b.refresh_rate = .gt :=
      Nat.compare_eq_gt.mpr hrr
    unfold VideoMode.cmp
    rw [hme, monitor_cmp_self, h1, h2]
    rfl

/-- C4 at concrete inputs: on one monitor, 1920×1080 sorts before (less-than)
1280×720 despite a lower refresh rate, and at equal 1920×1080 resolution the
144 Hz mode sorts before the 60 Hz one. -/
theorem video_mode_cmp_spec_witness :
    VideoMode.cmp
        ⟨⟨(1920, 1080), 32, 60⟩, ⟨0, true, "M", (1920, 1080), (0, 0), 1, []⟩⟩
        ⟨⟨(1280, 720), 32, 144⟩, ⟨0, true, "M", (1920, 1080), (0, 0), 1, []⟩⟩ = .lt ∧
    VideoMode.cmp
        ⟨⟨(1920, 1080), 32, 144⟩, ⟨0, true, "M", (1920, 1080), (0, 0), 1, []⟩⟩
        ⟨⟨(1920, 1080), 32, 60⟩, ⟨0, true, "M", (1920, 1080), (0, 0), 1, []⟩⟩ = .lt :=
  ⟨(video_mode_cmp_spec
      ⟨⟨(1920, 1080), 32, 60⟩, ⟨0, true, "M", (1920, 1080), (0, 0), 1, []⟩⟩
      ⟨⟨(1280, 720), 32, 144⟩, ⟨0, true, "M", (1920, 1080), (0, 0), 1, []⟩⟩).2.2.1
    rfl (by rfl),
   (video_mode_cmp_spec
      ⟨⟨(1920, 1080), 32, 144⟩, ⟨0, true, "M", (1920, 1080), (0, 0), 1, []⟩⟩
      ⟨⟨(1920, 1080), 32, 60⟩, ⟨0, true, "M", (1920, 1080), (0, 0), 1, []⟩⟩).2.2.2
    rfl rfl (by decide)⟩

/-- C8: monitor queries are total — on a vanished monitor `name` returns the
absence value `none` (and `some` of the stored name on a live one), while
`size`, `position`, `scale_factor` and `video_modes` serve the stored,
possibly stale, snapshot data rather than failing; each reported video mode
is owned by the queried monitor. -/
theorem monitor_vanished_queries (m : MonitorHandle) :
    (m.alive = false → m.name = none) ∧
    (m.alive = true → m.name = some m.stored_name) ∧
    m.size = m.stored_size ∧
    m.position = m.stored_position ∧
    m.scale_factor = m.stored_scale_factor ∧
    m.video_modes = m.stored_modes.map (fun vm => ⟨vm, m⟩) ∧
    (∀ v ∈ m.video_modes, v.monitor = m) := by
  refine ⟨?_, ?_, rfl, rfl, rfl, rfl, ?_⟩
  · intro h
    simp [MonitorHandle.name, h]
  · intro h
    simp [MonitorHandle.name, h]
  · intro v hv
    simp only [MonitorHandle.video_modes, List.mem_map] at hv
    obtain ⟨vm, _, rfl⟩ := hv
    rfl

/-- C8 at a concrete input: a vanished monitor still answers `name` (with
`none`) and serves its stale stored size. -/
theorem monitor_vanished_queries_witness :
    MonitorHandle.name ⟨7, false, "gone", (800, 600), (0, 0), 1, []⟩ = none ∧
    MonitorHandle.size ⟨7, false, "gone", (800, 600), (0, 0), 1, []⟩ = (800, 600) :=
  ⟨(monitor_vanished_queries ⟨7, false, "gone", (800, 600), (0, 0), 1, []⟩).1 rfl,
   (monitor_vanished_queries ⟨7, false, "gone", (800, 600), (0, 0), 1, []⟩).2.2.1⟩

end Tao

namespace Tao

/-! ## ControlFlow and the run-loop engine (`src/Source/event_loop.rs`,
`src/Source/platform/run_return.rs`)

The `ControlFlow` type, its `Default`, `EventLoopClosed` and the public entry
points are in the sources; the pump that enforces the sticky-exit invariant,
resets `ControlFlow` on `run_return`, and backs `send_event` lives in the
per-platform backends, which are not among the sources, so those parts are
modelled from the spec. -/

/-- `ControlFlow` from `src/Source/event_loop.rs`. The `Instant` deadline is
modelled as a `Nat` timestamp and the `i32` exit code as `Int`. -/
inductive ControlFlow where
  | Poll
  | Wait
  | WaitUntil (instant : Nat)
  | ExitWithCode (code : Int)
  deriving DecidableEq, Repr

/-- `ControlFlow::Exit`, the alias for `ExitWithCode(0)`. -/
def ControlFlow.Exit : ControlFlow := .ExitWithCode 0

/-- `impl Default for ControlFlow`: `Poll`. -/
def ControlFlow.default : ControlFlow := .Poll

/-- Modelled from the spec: the per-iteration sticky-exit enforcement of the
platform pump (`platform_impl` backends, not among the sources). After the
callback returns, the engine re-checks the value it passed in: if that value
was already `ExitWithCode`, it forcibly restores that exact value regardless
of what the callback wrote; otherwise the callback's write is accepted. -/
def stickyObserve (engineValue written : ControlFlow) : ControlFlow :=
  match engineValue with
  | .ExitWithCode c => .ExitWithCode c
  | _ => written

/-- Modelled from the spec: the sequence of engine-observed `ControlFlow`
values over one run. Element 0 is the initial value; element `i + 1` is what
the engine observes after the `i`-th callback write. -/
def engineTrace (init : ControlFlow) : List ControlFlow → List ControlFlow
  | [] => [init]
  | w :: ws => init :: engineTrace (stickyObserve init w) ws

theorem engineTrace_exit_all (c : Int) (ws : List ControlFlow) :
    ∀ x ∈ engineTrace (.ExitWithCode c) ws, x = ControlFlow.ExitWithCode c := by
  induction ws with
  | nil =>
    intro x hx
    simpa [engineTrace] using hx
  | cons w ws ih =>
    intro x hx
    rcases (by simpa [engineTrace, stickyObserve] using hx :
        x = ControlFlow.ExitWithCode c ∨ x ∈ engineTrace (.ExitWithCode c) ws) with h | h
    · exact h
    · exact ih x h

/-- C1: sticky exit — once the engine-observed `ControlFlow` value is
`ExitWithCode c`, every later engine-observed value in the same run equals
`ExitWithCode c`, no matter what the callback writes afterwards. -/
theorem sticky_exit (init : ControlFlow) (writes : List ControlFlow) (i : Nat) (c : Int)
    (hi : (engineTrace init writes)[i]? = some (.ExitWithCode c)) :
    ∀ j, i ≤ j → j < (engineTrace init writes).length →
      (engineTrace init writes)[j]? = some (.ExitWithCode c) := by
  induction writes generalizing init i with
  | nil =>
    intro j hij hj
    simp only [engineTrace, List.length_singleton] at hj
    have hi0 : i = 0 := by omega
    have hj0 : j = 0 := by omega
    subst hj0
    rw [hi0] at hi
    exact hi
  | cons w ws ih =>
    intro j hij hjlen
    cases i with
    | zero =>
      have hinit : init = .ExitWithCode c := by
        simpa [engineTrace] using hi
      subst hinit
      have hmem : ∀ x ∈ engineTrace (ControlFlow.ExitWithCode c) (w :: ws),
          x = ControlFlow.ExitWithCode c := engineTrace_exit_all c (w :: ws)
      have hget := List.getElem?_eq_getElem hjlen
      rw [hget]
      exact congrArg some (hmem _ (List.getElem_mem hjlen))
    | succ i' =>
      have hi' : (engineTrace (stickyObserve init w) ws)[i']? = some (.ExitWithCode c) := by
        simpa [engineTrace] using hi
      obtain ⟨j', rfl⟩ : ∃ j', j = j' + 1 := ⟨j - 1, by omega⟩
      have hjlen' : j' < (engineTrace (stickyObserve init w) ws).length := by
        simpa [engineTrace] using hjlen
      have := ih (stickyObserve init w) i' hi' j' (by omega) hjlen'
      simpa [engineTrace] using this

/-- C1 at a concrete run: starting from `Poll`, the callback requests exit
with code 3 and then tries to write `Wait` and `Poll`; every observed value
from the exit on — in particular the final one — stays `ExitWithCode 3`. -/
theorem sticky_exit_witness :
    (engineTrace .Poll [.ExitWithCode 3, .Wait, .Poll])[3]? =
      some (.ExitWithCode 3) :=
  sticky_exit .Poll [.ExitWithCode 3, .Wait, .Poll] 1 3 rfl 3
    (by omega) (by decide)

/-- Modelled from the spec: `run_return` (the platform pump is not among the
sources) allocates its `ControlFlow` state fresh at `ControlFlow.default` on
every invocation — `prevFinal`, the final ControlFlow of a previous
invocation on the same `EventLoop`, is never consulted — then pumps one
callback write per iteration, yielding the engine-observed trace. -/
def run_return (_prevFinal : Option ControlFlow) (writes : List ControlFlow) :
    List ControlFlow :=
  engineTrace ControlFlow.default writes

/-- C5: every `run_return` invocation starts with `ControlFlow` equal to the
default `Poll`, and its observed behaviour is identical whatever the final
ControlFlow state of a previous invocation was — no state is carried over. -/
theorem run_return_fresh_control_flow (prev prev' : Option ControlFlow)
    (writes : List ControlFlow) :
    ControlFlow.default = ControlFlow.Poll ∧
    (run_return prev writes).head? = some ControlFlow.Poll ∧
    run_return prev writes = run_return prev' writes := by
  refine ⟨rfl, ?_, rfl⟩
  cases writes <;> rfl

/-- The first exit code in an observed trace, if any: the code with which the
pump stops. -/
def firstExitCode : List ControlFlow → Option Int
  | [] => none
  | .ExitWithCode c :: _ => some c
  | .Poll :: rest => firstExitCode rest
  | .Wait :: rest => firstExitCode rest
  | .WaitUntil _ :: rest => firstExitCode rest

/-- Modelled from the spec: the only outcome `run` can have. There is no
"returned normally" alternative, mirroring the never type `!` of
`EventLoop::run`: when `ControlFlow` reaches `ExitWithCode(code)` the process
is terminated directly with that code. -/
inductive ProcessTermination where
  | exitProcess (code : Int)
  deriving DecidableEq, Repr

/-- Modelled from the spec: `run` consumes the loop, drives the pump from the
fresh default `ControlFlow`, and on observing `ExitWithCode c` terminates the
process with code `c` instead of returning. -/
def run (writes : List ControlFlow) : Option ProcessTermination :=
  (firstExitCode (engineTrace ControlFlow.default writes)).map .exitProcess

/-- Modelled from the spec: `run_return` pumps exactly until `ExitWithCode`
is observed and hands the code back to the caller as an ordinary integer. -/
def run_return_code (prevFinal : Option ControlFlow) (writes : List ControlFlow) :
    Option Int :=
  firstExitCode (run_return prevFinal writes)

/-- C9: when the pump observes `ExitWithCode c`, `run`'s only outcome is
direct process termination with code `c` (its outcome type has no normal
return), while `run_return` returns the same `c` as an ordinary integer. -/
theorem run_never_returns (writes : List ControlFlow) (c : Int)
    (h : firstExitCode (engineTrace ControlFlow.default writes) = some c) :
    run writes = some (.exitProcess c) ∧
    ∀ prev, run_return_code prev writes = some c := by
  constructor
  · simp [run, h]
  · intro prev
    simp [run_return_code, run_return, h]

/-- C9 at a concrete run: a callback that immediately requests exit code 7
makes `run` terminate the process with 7 and `run_return` return 7. -/
theorem run_never_returns_witness :
    run [.ExitWithCode 7] = some (.exitProcess 7) ∧
    run_return_code none [.ExitWithCode 7] = some 7 :=
  ⟨(run_never_returns [.ExitWithCode 7] 7 rfl).1,
   (run_never_returns [.ExitWithCode 7] 7 rfl).2 none⟩

/-- `EventLoopClosed` (`src/Source/event_loop.rs`): the error returned when
sending to a destroyed loop; wraps the original event given to
`send_event`. -/
structure EventLoopClosed (T : Type) where
  event : T
  deriving DecidableEq, Repr

/-- Modelled from the spec: the proxy's send primitive (the platform channel
is not among the sources). `loopAlive` records whether the owning `EventLoop`
still exists and `pending` the events already accepted. Sending succeeds,
appending the event for delivery, exactly when the loop is alive; otherwise
it fails, handing the original event back inside `EventLoopClosed`. -/
def send_event {T : Type} (loopAlive : Bool) (pending : List T) (event : T) :
    Except (EventLoopClosed T) (List T) :=
  if loopAlive then .ok (pending ++ [event]) else .error ⟨event⟩

/-- C6: `send_event` fails exactly when the owning loop has been destroyed;
on failure the error is `EventLoopClosed` carrying the original event
unchanged, and on success the event is accepted for delivery (appended to
the pending queue). -/
theorem send_event_spec {T : Type} (loopAlive : Bool) (pending : List T) (event : T) :
    ((∃ q, send_event loopAlive pending event = .ok q) ↔ loopAlive = true) ∧
    (loopAlive = false → send_event loopAlive pending event = .error ⟨event⟩) ∧
    (loopAlive = true → send_event loopAlive pending event = .ok (pending ++ [event])) := by
  cases loopAlive <;> simp [send_event]

/-- C6 at a concrete input: sending 42 to a destroyed loop returns exactly
`EventLoopClosed 42`; sending it to a live loop accepts it. -/
theorem send_event_spec_witness :
    send_event false ([] : List Nat) 42 = .error ⟨42⟩ ∧
    send_event true ([] : List Nat) 42 = .ok [42] :=
  ⟨(send_event_spec false ([] : List Nat) 42).2.1 rfl,
   (send_event_spec true ([] : List Nat) 42).2.2 rfl⟩

end Tao
